import Mathlib

/-!
Shallow embedding of the win-raw-in repository (src/winrawin/_api.py and
src/winrawin/_win_raw_input.py): device catalog, name-resolution tables,
raw-notification decoder and window-procedure interposition, together with
theorems settling the specification claims.
-/

set_option maxRecDepth 4096

/-- Models Python `str.lower` character-wise, restricted to the alphabet that
occurs in this repository's name tables: ASCII letters (`Char.toLower` agrees
with Python there) plus the non-ASCII uppercase letters Œ, Ø and Μ that occur
as alias values in `canonical_names`. -/
def pyCharLower (c : Char) : Char :=
  if c = 'Œ' then 'œ'
  else if c = 'Ø' then 'ø'
  else if c = 'Μ' then 'μ'
  else c.toLower

/-- Python `str.lower` on a whole string (character-wise over the modelled alphabet). -/
def pyLower (s : String) : String :=
  ⟨s.data.map pyCharLower⟩

/-- The character rewrite performed by `name.replace('_', ' ')` in `normalize_name`. -/
def underscoreToSpaceChar (c : Char) : Char :=
  if c = '_' then ' ' else c

/-- Python `name.replace('_', ' ')`. -/
def underscoreToSpace (s : String) : String :=
  ⟨s.data.map underscoreToSpaceChar⟩

/-- The `canonical_names` alias dict of `_win_raw_input.py` (brace, backtick
and apostrophe characters written with hex escapes). -/
def canonical_names : List (String × String) := [
  ("escape", "esc"),
  ("return", "enter"),
  ("del", "delete"),
  ("control", "ctrl"),
  ("altgr", "alt gr"),
  ("left arrow", "left"),
  ("up arrow", "up"),
  ("down arrow", "down"),
  ("right arrow", "right"),
  (" ", "space"),
  ("\x1b", "esc"),
  ("\x08", "backspace"),
  ("\n", "enter"),
  ("\t", "tab"),
  ("\r", "enter"),
  ("scrlk", "scroll lock"),
  ("prtscn", "print screen"),
  ("prnt scrn", "print screen"),
  ("snapshot", "print screen"),
  ("ins", "insert"),
  ("pause break", "pause"),
  ("ctrll lock", "caps lock"),
  ("capslock", "caps lock"),
  ("number lock", "num lock"),
  ("numlock:", "num lock"),
  ("space bar", "space"),
  ("spacebar", "space"),
  ("linefeed", "enter"),
  ("win", "windows"),
  ("app", "menu"),
  ("apps", "menu"),
  ("application", "menu"),
  ("applications", "menu"),
  ("pagedown", "page down"),
  ("pageup", "page up"),
  ("pgdown", "page down"),
  ("pgup", "page up"),
  ("next", "page down"),
  ("prior", "page up"),
  ("underscore", "_"),
  ("equal", "="),
  ("minplus", "+"),
  ("plus", "+"),
  ("add", "+"),
  ("subtract", "-"),
  ("minus", "-"),
  ("multiply", "*"),
  ("asterisk", "*"),
  ("divide", "/"),
  ("question", "?"),
  ("exclam", "!"),
  ("slash", "/"),
  ("bar", "|"),
  ("backslash", "\\"),
  ("braceleft", "\x7b"),
  ("braceright", "\x7d"),
  ("bracketleft", "["),
  ("bracketright", "]"),
  ("parenleft", "("),
  ("parenright", ")"),
  ("period", "."),
  ("dot", "."),
  ("comma", ","),
  ("semicolon", ";"),
  ("colon", ":"),
  ("less", "<"),
  ("greater", ">"),
  ("ampersand", "&"),
  ("at", "@"),
  ("numbersign", "#"),
  ("hash", "#"),
  ("hashtag", "#"),
  ("dollar", "$"),
  ("sterling", "£"),
  ("pound", "£"),
  ("yen", "¥"),
  ("euro", "€"),
  ("cent", "¢"),
  ("currency", "¤"),
  ("registered", "®"),
  ("copyright", "©"),
  ("notsign", "¬"),
  ("percent", "%"),
  ("diaeresis", "\""),
  ("quotedbl", "\""),
  ("onesuperior", "¹"),
  ("twosuperior", "²"),
  ("threesuperior", "³"),
  ("onehalf", "½"),
  ("onequarter", "¼"),
  ("threequarters", "¾"),
  ("paragraph", "¶"),
  ("section", "§"),
  ("ssharp", "§"),
  ("division", "÷"),
  ("questiondown", "¿"),
  ("exclamdown", "¡"),
  ("degree", "°"),
  ("guillemotright", "»"),
  ("guillemotleft", "«"),
  ("acute", "´"),
  ("agudo", "´"),
  ("grave", "\x60"),
  ("tilde", "~"),
  ("asciitilde", "~"),
  ("til", "~"),
  ("cedilla", ","),
  ("circumflex", "^"),
  ("apostrophe", "\x27"),
  ("adiaeresis", "ä"),
  ("udiaeresis", "ü"),
  ("odiaeresis", "ö"),
  ("oe", "Œ"),
  ("oslash", "ø"),
  ("ooblique", "Ø"),
  ("ccedilla", "ç"),
  ("ntilde", "ñ"),
  ("eacute", "é"),
  ("uacute", "ú"),
  ("oacute", "ó"),
  ("thorn", "þ"),
  ("ae", "æ"),
  ("eth", "ð"),
  ("masculine", "º"),
  ("feminine", "ª"),
  ("iacute", "í"),
  ("aacute", "á"),
  ("mu", "Μ"),
  ("aring", "å"),
  ("zero", "0"),
  ("one", "1"),
  ("two", "2"),
  ("three", "3"),
  ("four", "4"),
  ("five", "5"),
  ("six", "6"),
  ("seven", "7"),
  ("eight", "8"),
  ("nine", "9"),
  ("play/pause", "play/pause media"),
  ("num multiply", "*"),
  ("num divide", "/"),
  ("num add", "+"),
  ("num plus", "+"),
  ("num minus", "-"),
  ("num sub", "-"),
  ("num enter", "enter"),
  ("num 0", "0"),
  ("num 1", "1"),
  ("num 2", "2"),
  ("num 3", "3"),
  ("num 4", "4"),
  ("num 5", "5"),
  ("num 6", "6"),
  ("num 7", "7"),
  ("num 8", "8"),
  ("num 9", "9"),
  ("left win", "left windows"),
  ("right win", "right windows"),
  ("left control", "left ctrl"),
  ("right control", "right ctrl"),
  ("left menu", "left alt")]

/-- `normalize_name` from `_win_raw_input.py`: empty names become "unknown",
the name is lower-cased, underscores become spaces unless the whole (lowered)
name is "_", and the result is rewritten through `canonical_names` when present. -/
def normalize_name (name : String) : String :=
  if name = "" then "unknown"
  else
    let lowered := pyLower name
    let replaced := if lowered = "_" then lowered else underscoreToSpace lowered
    (canonical_names.lookup replaced).getD replaced

/-- The `VIRTUAL_KEYBOARD` dict of `_win_raw_input.py`: virtual-key code to
(name, is_keypad). The source dict literal repeats keys 0x15 and 0x19
(ime kana/hanguel/hangul and hanja/kanji); a Python dict literal keeps the
last value, so only the final entries appear here. -/
def VIRTUAL_KEYBOARD : List (Nat × String × Bool) := [
  (0x03, "control-break processing", false),
  (0x08, "backspace", false),
  (0x09, "tab", false),
  (0x0c, "clear", false),
  (0x0d, "enter", false),
  (0x10, "shift", false),
  (0x11, "ctrl", false),
  (0x12, "alt", false),
  (0x13, "pause", false),
  (0x14, "caps lock", false),
  (0x15, "ime hangul mode", false),
  (0x17, "ime junja mode", false),
  (0x18, "ime final mode", false),
  (0x19, "ime kanji mode", false),
  (0x1b, "esc", false),
  (0x1c, "ime convert", false),
  (0x1d, "ime nonconvert", false),
  (0x1e, "ime accept", false),
  (0x1f, "ime mode change request", false),
  (0x20, "spacebar", false),
  (0x21, "page up", false),
  (0x22, "page down", false),
  (0x23, "end", false),
  (0x24, "home", false),
  (0x25, "left", false),
  (0x26, "up", false),
  (0x27, "right", false),
  (0x28, "down", false),
  (0x29, "select", false),
  (0x2a, "print", false),
  (0x2b, "execute", false),
  (0x2c, "print screen", false),
  (0x2d, "insert", false),
  (0x2e, "delete", false),
  (0x2f, "help", false),
  (0x30, "0", false),
  (0x31, "1", false),
  (0x32, "2", false),
  (0x33, "3", false),
  (0x34, "4", false),
  (0x35, "5", false),
  (0x36, "6", false),
  (0x37, "7", false),
  (0x38, "8", false),
  (0x39, "9", false),
  (0x41, "a", false),
  (0x42, "b", false),
  (0x43, "c", false),
  (0x44, "d", false),
  (0x45, "e", false),
  (0x46, "f", false),
  (0x47, "g", false),
  (0x48, "h", false),
  (0x49, "i", false),
  (0x4a, "j", false),
  (0x4b, "k", false),
  (0x4c, "l", false),
  (0x4d, "m", false),
  (0x4e, "n", false),
  (0x4f, "o", false),
  (0x50, "p", false),
  (0x51, "q", false),
  (0x52, "r", false),
  (0x53, "s", false),
  (0x54, "t", false),
  (0x55, "u", false),
  (0x56, "v", false),
  (0x57, "w", false),
  (0x58, "x", false),
  (0x59, "y", false),
  (0x5a, "z", false),
  (0x5b, "left windows", false),
  (0x5c, "right windows", false),
  (0x5d, "applications", false),
  (0x5f, "sleep", false),
  (0x60, "0", true),
  (0x61, "1", true),
  (0x62, "2", true),
  (0x63, "3", true),
  (0x64, "4", true),
  (0x65, "5", true),
  (0x66, "6", true),
  (0x67, "7", true),
  (0x68, "8", true),
  (0x69, "9", true),
  (0x6a, "*", true),
  (0x6b, "+", true),
  (0x6c, "separator", true),
  (0x6d, "-", true),
  (0x6e, "decimal", true),
  (0x6f, "/", true),
  (0x70, "f1", false),
  (0x71, "f2", false),
  (0x72, "f3", false),
  (0x73, "f4", false),
  (0x74, "f5", false),
  (0x75, "f6", false),
  (0x76, "f7", false),
  (0x77, "f8", false),
  (0x78, "f9", false),
  (0x79, "f10", false),
  (0x7a, "f11", false),
  (0x7b, "f12", false),
  (0x7c, "f13", false),
  (0x7d, "f14", false),
  (0x7e, "f15", false),
  (0x7f, "f16", false),
  (0x80, "f17", false),
  (0x81, "f18", false),
  (0x82, "f19", false),
  (0x83, "f20", false),
  (0x84, "f21", false),
  (0x85, "f22", false),
  (0x86, "f23", false),
  (0x87, "f24", false),
  (0x90, "num lock", true),
  (0x91, "scroll lock", false),
  (0xa0, "left shift", false),
  (0xa1, "right shift", false),
  (0xa2, "left ctrl", false),
  (0xa3, "right ctrl", false),
  (0xa4, "left menu", false),
  (0xa5, "right menu", false),
  (0xa6, "browser back", false),
  (0xa7, "browser forward", false),
  (0xa8, "browser refresh", false),
  (0xa9, "browser stop", false),
  (0xaa, "browser search key ", false),
  (0xab, "browser favorites", false),
  (0xac, "browser start and home", false),
  (0xad, "volume mute", false),
  (0xae, "volume down", false),
  (0xaf, "volume up", false),
  (0xb0, "next track", false),
  (0xb1, "previous track", false),
  (0xb2, "stop media", false),
  (0xb3, "play/pause media", false),
  (0xb4, "start mail", false),
  (0xb5, "select media", false),
  (0xb6, "start application 1", false),
  (0xb7, "start application 2", false),
  (0xbb, "+", false),
  (0xbc, ",", false),
  (0xbd, "-", false),
  (0xbe, ".", false),
  (0xe5, "ime process", false),
  (0xf6, "attn", false),
  (0xf7, "crsel", false),
  (0xf8, "exsel", false),
  (0xf9, "erase eof", false),
  (0xfa, "play", false),
  (0xfb, "zoom", false),
  (0xfc, "reserved ", false),
  (0xfd, "pa1", false),
  (0xfe, "clear", false)]

/-- `KEY_EVENT_TYPE`: message code to event type; 260 is multi-key-down (alt gr). -/
def KEY_EVENT_TYPE : List (Nat × String) := [
  (256, "down"),
  (257, "up"),
  (260, "down")]

/-- `MOUSE_TYPES`: mouse `dwId` to documented name. -/
def MOUSE_TYPES : List (Nat × String) := [
  (128, "HID mouse"),
  (256, "HID wheel mouse"),
  (32768, "Mouse with horizontal wheel")]

/-- `KEYBOARD_TYPES`: keyboard `dwType` to documented name. -/
def KEYBOARD_TYPES : List (Nat × String) := [
  (4, "Enhanced 101- or 102-key keyboards (and compatibles)"),
  (7, "Japanese Keyboard"),
  (8, "Korean Keyboard"),
  (81, "Unknown type or HID keyboard")]

/-- `GENERIC_DESKTOP_CONTROLS_PAGE`: usage codes of HID usage page 1. -/
def GENERIC_DESKTOP_CONTROLS_PAGE : List (Nat × String) := [
  (1, "Pointer"),
  (2, "Mouse"),
  (4, "Joystick"),
  (5, "Game Pad"),
  (6, "Keyboard"),
  (7, "Keypad"),
  (8, "Multi-axis Controller")]

/-- `MOUSE_BUTTONS`: button bit-field to (event type, button index, button name). -/
def MOUSE_BUTTONS : List (Nat × String × Int × String) := [
  (1, "down", 1, "left"),
  (2, "up", 1, "left"),
  (4, "down", 3, "right"),
  (8, "up", 3, "right"),
  (16, "down", 2, "middle"),
  (32, "up", 2, "middle"),
  (64, "down", 4, "thumb1"),
  (128, "up", 4, "thumb1"),
  (256, "down", 5, "thumb2"),
  (512, "up", 5, "thumb2"),
  (7865344, "wheel-up", 2, "wheel"),
  (4287104000, "wheel-down", 2, "wheel")]

/-- `USAGE_PAGE_NAMES` from `_win_raw_input.py`: usage page code to
(page name, table of usage names on that page). -/
def USAGE_PAGE_NAMES : List (Nat × String × List (Nat × String)) := [
  (0x01, "Generic Desktop Controls", GENERIC_DESKTOP_CONTROLS_PAGE),
  (0x05, "Game Controls", []),
  (0x08, "LEDs", []),
  (0x09, "Button", [])]

/-- The `WM_INPUT` message code (0x00FF). -/
def WM_INPUT : Nat := 0x00FF

/-- The `Mouse` dataclass of `_api.py`. -/
structure Mouse where
  handle : Nat
  name : String
  mouse_type : String
  num_buttons : Nat
  sample_rate : Option Nat
  has_horizontal_wheel : Bool
deriving DecidableEq

/-- The `Keyboard` dataclass of `_api.py`. -/
structure Keyboard where
  handle : Nat
  name : String
  keyboard_type : String
  subtype : Nat
  scan_code_mode : Nat
  num_function_keys : Nat
  num_indicators : Nat
  num_keys : Nat
deriving DecidableEq

/-- The `HID` dataclass of `_api.py`. -/
structure HID where
  handle : Nat
  name : String
  vendor_id : Nat
  product_id : Nat
  version_number : Nat
  usage_page : Nat
  usage_page_name : String
  usage : Nat
  usage_name : String
deriving DecidableEq

/-- `RawInputDevice` of `_api.py`, polymorphic over the three variants. -/
inductive RawInputDevice where
  | mouse (m : Mouse)
  | keyboard (k : Keyboard)
  | hid (h : HID)
deriving DecidableEq

/-- The `handle` attribute common to all `RawInputDevice` variants. -/
def RawInputDevice.handle : RawInputDevice → Nat
  | .mouse m => m.handle
  | .keyboard k => k.handle
  | .hid h => h.handle

/-- The `CACHED_DEVICES` dict (handle → device); later insertions are
prepended so that `List.lookup` sees the most recent binding first. -/
abbrev DeviceCache := List (Nat × RawInputDevice)

/-- `get_device(dw_type, handle)` from `_api.py`. A cache hit returns the
cached entry with the cache unchanged and zero platform lookups; `dw_type` is
not consulted before the cache check. On a cache miss, the first statement
executed is `name = get_device_name(handle)` (_api.py:132) — but no
`get_device_name` is defined anywhere in the staged package:
`_win_raw_input.py` defines `get_device_path`, and the star import carries no
`get_device_name`. Python therefore raises `NameError` at that line, before
the device-info query, the `dw_type` dispatch, the cache insert (line 159)
and the `NotImplementedError` (line 158), all of which are unreachable on the
uncached path. -/
def get_device (dw_type handle : Nat) (cache : DeviceCache) :
    Except String (RawInputDevice × DeviceCache × Nat) :=
  match List.lookup handle cache with
  | some d => .ok (d, cache, 0)
  | none => .error "NameError: name \x27get_device_name\x27 is not defined"

/-- One `RAWINPUTDEVICELIST` entry returned by `GetRawInputDeviceList`. -/
structure OSDeviceEntry where
  hDevice : Nat
  dwType : Nat
deriving DecidableEq

/-- The list comprehension inside `list_devices`: `get_device` applied to each
enumerated OS entry in order, threading `CACHED_DEVICES` through the calls and
summing the platform lookups. A raised `NameError` propagates out. -/
def enum_devices : List OSDeviceEntry → DeviceCache →
    Except String (List RawInputDevice × DeviceCache × Nat)
  | [], cache => .ok ([], cache, 0)
  | dev :: rest, cache =>
    match get_device dev.dwType dev.hDevice cache with
    | .error e => .error e
    | .ok (d, cache1, n) =>
      match enum_devices rest cache1 with
      | .error e => .error e
      | .ok (ds, cache2, m) => .ok (d :: ds, cache2, n + m)

/-- `list_devices()` from `_api.py`: enumerate all devices, then replace
`CACHED_DEVICES` wholesale with `{d.handle: d for d in devices}`. The cache
replacement (line 125) runs only when every `get_device` call returned, so it
is reached only for the empty enumeration. -/
def list_devices (osList : List OSDeviceEntry) (cache : DeviceCache) :
    Except String (List RawInputDevice × DeviceCache × Nat) :=
  match enum_devices osList cache with
  | .error e => .error e
  | .ok (devices, _, n) => .ok (devices, devices.map (fun d => (d.handle, d)), n)

/-- The outcome of the size query `GetRawInputDeviceInfoW(handle,
RIDI_DEVICENAME, None, size)` inside `is_connected`: the call's return value
and the `GetLastError()` code observed after it. -/
structure NameQueryResult where
  ret : Nat
  lastError : Nat
deriving DecidableEq

/-- Windows error code 6, `ERROR_INVALID_HANDLE` ("The handle is invalid."). -/
def ERROR_INVALID_HANDLE : Nat := 6

/-- Windows error code 1168, `ERROR_NOT_FOUND` ("Element not found."). -/
def ERROR_NOT_FOUND : Nat := 1168

/-- `is_connected` from `_win_raw_input.py`: true when the name size query
returns 0, false when it fails with `GetLastError() == 6`, and every other
failure is raised as `ctypes.WinError` carrying the error code. -/
def is_connected (r : NameQueryResult) : Except Nat Bool :=
  if r.ret = 0 then .ok true
  else if r.lastError = 6 then .ok false
  else .error r.lastError

/-- `RAWKEYBOARD`: the keyboard arm of the `RAWINPUT` data union. -/
structure RAWKEYBOARD where
  scan_code : Nat
  flags : Nat
  vk_code : Nat
  message : Nat
deriving DecidableEq

/-- `RAWMOUSE`: the mouse arm of the `RAWINPUT` data union (`lLastX`/`lLastY`
are signed `LONG` values). -/
structure RAWMOUSE where
  usFlags : Nat
  ulButtons : Nat
  lLastX : Int
  lLastY : Int
deriving DecidableEq

/-- `RAWHID`: the HID arm of the `RAWINPUT` data union. `bRawData` is the
backing byte buffer, which may be larger than the logical
`dwSizeHid * dwCount` payload. -/
structure RAWHID where
  dwSizeHid : Nat
  dwCount : Nat
  bRawData : List Nat
deriving DecidableEq

/-- The `RAWINPUT` data union, tagged by the device class. -/
inductive RAWINPUTData where
  | mouse (m : RAWMOUSE)
  | keyboard (k : RAWKEYBOARD)
  | hid (h : RAWHID)
deriving DecidableEq

/-- A `RAWINPUT` record fetched by `GetRawInputData`: the header's device
handle together with the data union. -/
structure RAWINPUT where
  hDevice : Nat
  data : RAWINPUTData
deriving DecidableEq

/-- `header.dwType`: the discriminant the OS stores in the header, which by
the OS contract always matches the populated union arm (0 mouse, 1 keyboard,
2 HID). -/
def RAWINPUT.dwType : RAWINPUT → Nat
  | ⟨_, .mouse _⟩ => 0
  | ⟨_, .keyboard _⟩ => 1
  | ⟨_, .hid _⟩ => 2

/-- The `RawInputEvent` dataclass of `_api.py`. The timestamp is the
monotonic-clock reading taken at decode start, modelled as an opaque number. -/
structure RawInputEvent where
  event_type : String
  code : Int
  name : Option String
  device_type : String
  device : RawInputDevice
  delta_x : Option Int
  delta_y : Option Int
  hwnd : Nat
  time : Nat
  data : Option (List Nat)
deriving DecidableEq

/-- The `process_message` closure defined inside `hook_raw_input_for_window`
(`_api.py`). `key_names_lower` is the `KEY_NAMES_LOWER` scan-code name table
(built once at startup from OS queries); `dwSize` is the payload size reported
by `GetRawInputData`. Non-`WM_INPUT` messages are ignored before any decoding
(`.ok none`); a `WM_INPUT` message first resolves the device via `get_device`
(line 221) — whose uncached arm raises `NameError` — and only then branches
on the device class. Failed `assert`s and failing dict lookups raise,
modelled as `.error`. -/
def process_message (key_names_lower : Nat → Option String)
    (cache : DeviceCache) (hwnd event_time : Nat)
    (msg : Nat) (raw : RAWINPUT) (dwSize : Nat) :
    Except String (Option RawInputEvent × DeviceCache) :=
  if msg = WM_INPUT then
    match get_device raw.dwType raw.hDevice cache with
    | .error e => .error e
    | .ok (device, cache1, _) =>
      match raw.data with
      | .keyboard kb =>
        if dwSize = 40 then
          let resolved : Except String (String × Bool) :=
            match VIRTUAL_KEYBOARD.lookup kb.vk_code with
            | some nk => .ok nk
            | none =>
              match key_names_lower kb.scan_code with
              | some nm => .ok (nm, false)
              | none => .error "KeyError: scan code not in KEY_NAMES_LOWER"
          match resolved with
          | .error e => .error e
          | .ok (key_name, is_keypad) =>
            match KEY_EVENT_TYPE.lookup kb.message with
            | none => .error "KeyError: message not in KEY_EVENT_TYPE"
            | some evt_type =>
              .ok (some ⟨evt_type, Int.ofNat kb.scan_code, some key_name,
                   if is_keypad then "keypad" else "keyboard",
                   device, none, none, hwnd, event_time, none⟩, cache1)
        else .error "AssertionError: keyboard payload size is not 40"
      | .mouse mo =>
        if dwSize = 48 then
          if mo.ulButtons = 0 then
            .ok (some ⟨"move", -1, none, "mouse", device,
                 some mo.lLastX, some mo.lLastY, hwnd, event_time, none⟩, cache1)
          else
            match MOUSE_BUTTONS.lookup mo.ulButtons with
            | some (evt_type, button_id, button_name) =>
              .ok (some ⟨evt_type, button_id, some button_name, "mouse", device,
                   none, none, hwnd, event_time, none⟩, cache1)
            | none => .error "KeyError: button not in MOUSE_BUTTONS"
        else .error "AssertionError: mouse payload size is not 48"
      | .hid hd =>
        let raw_data_bytes := hd.bRawData.take (hd.dwSizeHid * hd.dwCount)
        .ok (some ⟨"data", -1,
             some (toString hd.dwCount ++ " x " ++ toString hd.dwSizeHid ++ " bytes"),
             "hid", device, none, none, hwnd, event_time, some raw_data_bytes⟩, cache1)
  else
    .ok (none, cache)

/-- The observable steps of the replacement window procedure installed by
`set_window_procedure`. -/
inductive WndAction where
  | hookInvoked
  | callPreviousProc (prev : Nat)
  | callDefaultProc
deriving DecidableEq

/-- The wrapper `process_message` installed by `set_window_procedure`
(`_win_raw_input.py`): it first invokes the supplied procedure (the hook) and,
when the hook returns normally, forwards the message via
`CallWindowProc(prevWndProc, ...)` when `call_original` is set, else via
`DefWindowProcA`. When the hook raises, the exception propagates and no
forwarding happens. -/
def window_proc_trace (call_original : Bool) (prevWndProc : Nat)
    (hook : Except String Unit) : List WndAction :=
  match hook with
  | .ok _ =>
    [.hookInvoked, if call_original then .callPreviousProc prevWndProc else .callDefaultProc]
  | .error _ => [.hookInvoked]

/-- The calls made to the user `callback` for one window message: exactly one
when the decoder produced an event, none otherwise. -/
def callback_invocations (result : Except String (Option RawInputEvent × DeviceCache)) :
    List RawInputEvent :=
  match result with
  | .ok (some e, _) => [e]
  | _ => []

/-- A `Mouse` catalog entry keyed by handle 7, used to exercise the cache-hit
path of `get_device`. -/
def sample_mouse_device : RawInputDevice := .mouse ⟨7, "device-path", "HID mouse", 5, none, true⟩

/-- A keyboard `RAWINPUT` notification: handle 7, scan code 30, virtual-key
0x41 ("a"), key-down message 256. -/
def sample_kb_raw : RAWINPUT := ⟨7, .keyboard ⟨30, 0, 0x41, 256⟩⟩

/-- A mouse `RAWINPUT` motion notification with deltas (5, -3) and no buttons. -/
def sample_mouse_raw : RAWINPUT := ⟨7, .mouse ⟨0, 0, 5, -3⟩⟩

/-- A mouse `RAWINPUT` notification with button bit-field 1 (left down). -/
def sample_mouse_btn_raw : RAWINPUT := ⟨7, .mouse ⟨0, 1, 0, 0⟩⟩

/-- An HID `RAWINPUT` notification: 3 reports of 4 bytes over a 14-byte
backing buffer. -/
def sample_hid_raw : RAWINPUT :=
  ⟨7, .hid ⟨4, 3, [0, 1, 2, 3, 4, 5, 6, 7, 8, 9, 10, 11, 12, 13]⟩⟩

theorem toNat_ofNat_of_lt {n : Nat} (h : n < 0xd800) : (Char.ofNat n).toNat = n := by
  have hv : n.isValidChar := Or.inl h
  simp [Char.ofNat, hv, Char.ofNatAux, Char.toNat, UInt32.toNat, BitVec.toNat_ofNatLt]

theorem toLower_toNat (c : Char) :
    c.toLower.toNat = if 65 ≤ c.toNat ∧ c.toNat ≤ 90 then c.toNat + 32 else c.toNat := by
  show (if c.toNat ≥ 65 ∧ c.toNat ≤ 90 then Char.ofNat (c.toNat + 32) else c).toNat = _
  by_cases h : 65 ≤ c.toNat ∧ c.toNat ≤ 90
  · rw [if_pos h, if_pos h]
    exact toNat_ofNat_of_lt (by omega)
  · rw [if_neg h, if_neg h]

theorem toLower_eq_self (c : Char) (h : ¬(65 ≤ c.toNat ∧ c.toNat ≤ 90)) : c.toLower = c := by
  show (if c.toNat ≥ 65 ∧ c.toNat ≤ 90 then Char.ofNat (c.toNat + 32) else c) = c
  rw [if_neg h]

theorem toLower_idem (c : Char) : c.toLower.toLower = c.toLower := by
  by_cases h : 65 ≤ c.toNat ∧ c.toNat ≤ 90
  · apply toLower_eq_self
    rw [toLower_toNat, if_pos h]
    omega
  · rw [toLower_eq_self c h]
    exact toLower_eq_self c h

theorem pyCharLower_idem (c : Char) : pyCharLower (pyCharLower c) = pyCharLower c := by
  by_cases h1 : c = 'Œ'
  · subst h1; decide
  by_cases h2 : c = 'Ø'
  · subst h2; decide
  by_cases h3 : c = 'Μ'
  · subst h3; decide
  have hlow : pyCharLower c = c.toLower := by simp [pyCharLower, h1, h2, h3]
  rw [hlow]
  have h4 : c.toLower ≠ 'Œ' ∧ c.toLower ≠ 'Ø' ∧ c.toLower ≠ 'Μ' := by
    by_cases h : 65 ≤ c.toNat ∧ c.toNat ≤ 90
    · have hn : c.toLower.toNat = c.toNat + 32 := by rw [toLower_toNat, if_pos h]
      refine ⟨fun he => ?_, fun he => ?_, fun he => ?_⟩
      · rw [he, show ('Œ').toNat = 338 from rfl] at hn
        omega
      · rw [he, show ('Ø').toNat = 216 from rfl] at hn
        omega
      · rw [he, show ('Μ').toNat = 924 from rfl] at hn
        omega
    · rw [toLower_eq_self c h]
      exact ⟨h1, h2, h3⟩
  simp [pyCharLower, h4.1, h4.2.1, h4.2.2, toLower_idem]

theorem underscoreToSpaceChar_idem (c : Char) :
    underscoreToSpaceChar (underscoreToSpaceChar c) = underscoreToSpaceChar c := by
  unfold underscoreToSpaceChar
  by_cases h : c = '_' <;> simp [h]

theorem underscoreToSpaceChar_ne_underscore (c : Char) : underscoreToSpaceChar c ≠ '_' := by
  unfold underscoreToSpaceChar
  by_cases h : c = '_' <;> simp [h]

theorem pyCharLower_underscoreToSpaceChar (c : Char) :
    pyCharLower (underscoreToSpaceChar (pyCharLower c)) = underscoreToSpaceChar (pyCharLower c) := by
  by_cases h : pyCharLower c = '_'
  · rw [h]; decide
  · unfold underscoreToSpaceChar
    rw [if_neg h]
    exact pyCharLower_idem c

theorem mem_of_lookup_eq_some {α β : Type} [BEq α] [LawfulBEq α] {l : List (α × β)} {k : α} {v : β}
    (h : l.lookup k = some v) : (k, v) ∈ l := by
  induction l with
  | nil => simp [List.lookup] at h
  | cons p rest ih =>
    obtain ⟨a, b⟩ := p
    rw [List.lookup_cons] at h
    split at h
    · next hk =>
        cases h
        exact (beq_iff_eq.mp hk) ▸ List.mem_cons_self _ _
    · next hk => exact List.mem_cons_of_mem _ (ih h)

theorem normalize_shape_fixed (w : List Char) (hw : w ≠ [])
    (hn : canonical_names.lookup ⟨w.map fun c => underscoreToSpaceChar (pyCharLower c)⟩ = none) :
    normalize_name ⟨w.map fun c => underscoreToSpaceChar (pyCharLower c)⟩ =
      ⟨w.map fun c => underscoreToSpaceChar (pyCharLower c)⟩ := by
  have hcomp : pyCharLower ∘ (fun c => underscoreToSpaceChar (pyCharLower c)) =
      (fun c => underscoreToSpaceChar (pyCharLower c)) :=
    funext fun c => pyCharLower_underscoreToSpaceChar c
  have hcomp2 : underscoreToSpaceChar ∘ (fun c => underscoreToSpaceChar (pyCharLower c)) =
      (fun c => underscoreToSpaceChar (pyCharLower c)) :=
    funext fun c => underscoreToSpaceChar_idem (pyCharLower c)
  have hne : (⟨w.map fun c => underscoreToSpaceChar (pyCharLower c)⟩ : String) ≠ "" := by
    intro h
    apply hw
    have hd := congrArg String.data h
    simp only [String.data] at hd
    cases w with
    | nil => rfl
    | cons c w' => simp at hd
  have hlow : pyLower ⟨w.map fun c => underscoreToSpaceChar (pyCharLower c)⟩ =
      ⟨w.map fun c => underscoreToSpaceChar (pyCharLower c)⟩ :=
    congrArg String.mk (by rw [List.map_map, hcomp])
  have hnu : (⟨w.map fun c => underscoreToSpaceChar (pyCharLower c)⟩ : String) ≠ "_" := by
    intro h
    have hd := congrArg String.data h
    cases w with
    | nil => simp at hd
    | cons c w' =>
      rw [List.map_cons] at hd
      have : underscoreToSpaceChar (pyCharLower c) = '_' := by
        injection hd with h1 h2
      exact underscoreToSpaceChar_ne_underscore (pyCharLower c) this
  have hrep : underscoreToSpace ⟨w.map fun c => underscoreToSpaceChar (pyCharLower c)⟩ =
      ⟨w.map fun c => underscoreToSpaceChar (pyCharLower c)⟩ :=
    congrArg String.mk (by rw [List.map_map, hcomp2])
  unfold normalize_name
  rw [if_neg hne]
  simp only [hlow]
  rw [if_neg hnu, hrep, hn]
  rfl

theorem normalize_name_eq_of_underscore (s : String) (hs : s ≠ "") (hus : pyLower s = "_") :
    normalize_name s = "_" := by
  unfold normalize_name
  rw [if_neg hs]
  simp only [hus, if_pos rfl]
  decide

theorem normalize_name_eq (s : String) (hs : s ≠ "") (hus : pyLower s ≠ "_") :
    normalize_name s = (canonical_names.lookup (underscoreToSpace (pyLower s))).getD
      (underscoreToSpace (pyLower s)) := by
  unfold normalize_name
  rw [if_neg hs]
  simp only [if_neg hus]

theorem underscoreToSpace_pyLower_data (s : String) :
    underscoreToSpace (pyLower s) = ⟨s.data.map fun c => underscoreToSpaceChar (pyCharLower c)⟩ :=
  congrArg String.mk (by
    show List.map underscoreToSpaceChar (List.map pyCharLower s.data) =
      List.map (fun c => underscoreToSpaceChar (pyCharLower c)) s.data
    rw [List.map_map]
    rfl)

/-- C8: `normalize_name` is idempotent for every name whose normal form is not
one of the three alias values containing an uppercase non-ASCII letter
("Œ", "Ø", "Μ": the only `canonical_names` values that are not fixed points,
because Python lower-cases them on a second pass); and
`normalize_name "escape" = "esc"`, `normalize_name "Left Arrow" = "left"`,
and `normalize_name "_" = "_"` (a lone underscore is preserved). -/
theorem normalize_name_idempotent_amended (s : String)
    (h1 : normalize_name s ≠ "Œ") (h2 : normalize_name s ≠ "Ø")
    (h3 : normalize_name s ≠ "Μ") :
    normalize_name (normalize_name s) = normalize_name s ∧
    normalize_name "escape" = "esc" ∧
    normalize_name "Left Arrow" = "left" ∧
    normalize_name "_" = "_" := by
  refine ⟨?_, by decide, by decide, by decide⟩
  by_cases hs : s = ""
  · subst hs; decide
  by_cases hus : pyLower s = "_"
  · rw [normalize_name_eq_of_underscore s hs hus]; decide
  have hdne : s.data ≠ [] := fun h => hs (String.ext h)
  cases hl : canonical_names.lookup (underscoreToSpace (pyLower s)) with
  | none =>
    have heq : normalize_name s = underscoreToSpace (pyLower s) := by
      rw [normalize_name_eq s hs hus, hl]
      rfl
    rw [heq, underscoreToSpace_pyLower_data s]
    apply normalize_shape_fixed s.data hdne
    rw [← underscoreToSpace_pyLower_data s]
    exact hl
  | some v =>
    have heq : normalize_name s = v := by
      rw [normalize_name_eq s hs hus, hl]
      rfl
    have hmem : (underscoreToSpace (pyLower s), v) ∈ canonical_names := mem_of_lookup_eq_some hl
    have hall : ∀ p ∈ canonical_names,
        p.2 = "Œ" ∨ p.2 = "Ø" ∨ p.2 = "Μ" ∨ normalize_name p.2 = p.2 := by decide
    rcases hall _ hmem with h | h | h | h
    · exact absurd (heq.trans h) h1
    · exact absurd (heq.trans h) h2
    · exact absurd (heq.trans h) h3
    · rw [heq]
      exact h

/-- Witness for C8: the amended idempotence theorem applied at "escape". -/
theorem normalize_name_idempotent_amended_witness :
    normalize_name (normalize_name "escape") = normalize_name "escape" ∧
    normalize_name "escape" = "esc" ∧
    normalize_name "Left Arrow" = "left" ∧
    normalize_name "_" = "_" :=
  normalize_name_idempotent_amended "escape" (by decide) (by decide) (by decide)

/-- C8 counterexample: `normalize_name` is not idempotent on every string:
`normalize_name "oe" = "Œ"` (an alias value with an uppercase non-ASCII
letter), but a second pass lower-cases it to "œ". -/
theorem normalize_name_not_idempotent_at_oe :
    normalize_name (normalize_name "oe") ≠ normalize_name "oe" := by decide

/-- C4 (amended): `is_connected` returns true when the OS name size query
succeeds (returns 0); on failure it returns false exactly when
`GetLastError()` is 6 (`ERROR_INVALID_HANDLE`), and raises `WinError`
carrying the error code for every other error code. -/
theorem is_connected_error_discrimination (r : NameQueryResult) :
    (r.ret = 0 → is_connected r = .ok true) ∧
    (r.ret ≠ 0 → r.lastError = ERROR_INVALID_HANDLE → is_connected r = .ok false) ∧
    (r.ret ≠ 0 → r.lastError ≠ ERROR_INVALID_HANDLE → is_connected r = .error r.lastError) := by
  unfold is_connected
  refine ⟨fun h => by rw [if_pos h],
          fun h h6 => by rw [if_neg h, if_pos (show r.lastError = 6 from h6)],
          fun h h6 => by rw [if_neg h, if_neg (show r.lastError ≠ 6 from h6)]⟩

/-- Witness for C4: success, invalid-handle failure and an
"element not found" failure, each through the amended theorem. -/
theorem is_connected_error_discrimination_witness :
    is_connected ⟨0, 0⟩ = .ok true ∧
    is_connected ⟨1, ERROR_INVALID_HANDLE⟩ = .ok false ∧
    is_connected ⟨1, ERROR_NOT_FOUND⟩ = .error ERROR_NOT_FOUND :=
  ⟨(is_connected_error_discrimination ⟨0, 0⟩).1 rfl,
   (is_connected_error_discrimination ⟨1, ERROR_INVALID_HANDLE⟩).2.1 (by decide) rfl,
   (is_connected_error_discrimination ⟨1, ERROR_NOT_FOUND⟩).2.2 (by decide) (by decide)⟩

/-- C4 counterexample: when the OS reports "element not found"
(`GetLastError() = 1168`) the code raises instead of returning false, and it
returns false for error code 6 (`ERROR_INVALID_HANDLE`), an OS-level failure
the claim says must propagate as an error. -/
theorem is_connected_not_found_raises :
    is_connected ⟨1, ERROR_NOT_FOUND⟩ ≠ .ok false ∧
    is_connected ⟨1, ERROR_NOT_FOUND⟩ = .error ERROR_NOT_FOUND ∧
    is_connected ⟨1, ERROR_INVALID_HANDLE⟩ = .ok false := by
  refine ⟨fun h => ?_, rfl, rfl⟩
  simp [is_connected, ERROR_NOT_FOUND] at h

/-- C1 (code bug): the claimed keyboard decode never happens in the staged
code. The decoder resolves the device first (`get_device` at _api.py:221),
and the only cache state the program can reach is empty — both cache-write
sites (_api.py:125 and 159) are downstream of the crashing line — so the
uncached arm raises `NameError: name 'get_device_name' is not defined`
(_api.py:132). A `WM_INPUT` keyboard notification with virtual-key 0x41 and
key-down message 256 therefore raises and invokes no callback, instead of
producing the claimed 'down'/'keyboard'/"a" event. -/
theorem keyboard_decode_vk41_crashes :
    process_message (fun _ => none) [] 5 0 WM_INPUT sample_kb_raw 40 =
      .error "NameError: name \x27get_device_name\x27 is not defined" ∧
    callback_invocations
      (process_message (fun _ => none) [] 5 0 WM_INPUT sample_kb_raw 40) = [] :=
  ⟨rfl, rfl⟩

/-- C2 (code bug): no mouse notification is ever decoded in the staged code.
Both the pure-motion payload (button field 0, deltas (5, -3)) and the
button-1 payload raise `NameError` from `get_device` (_api.py:132, undefined
`get_device_name`) before the mouse branch, on the empty cache that is the
program's only reachable cache state; no 'move' or 'down'/'left' event is
emitted and the callback never runs. -/
theorem mouse_decode_crashes :
    process_message (fun _ => none) [] 5 0 WM_INPUT sample_mouse_raw 48 =
      .error "NameError: name \x27get_device_name\x27 is not defined" ∧
    callback_invocations
      (process_message (fun _ => none) [] 5 0 WM_INPUT sample_mouse_raw 48) = [] ∧
    process_message (fun _ => none) [] 5 0 WM_INPUT sample_mouse_btn_raw 48 =
      .error "NameError: name \x27get_device_name\x27 is not defined" ∧
    callback_invocations
      (process_message (fun _ => none) [] 5 0 WM_INPUT sample_mouse_btn_raw 48) = [] :=
  ⟨rfl, rfl, rfl, rfl⟩

/-- C3 (code bug): the HID branch of the decoder is unreachable in the staged
code. A `WM_INPUT` HID notification (here 3 reports of 4 bytes over a 14-byte
buffer) raises `NameError` from `get_device` (_api.py:132, undefined
`get_device_name`) before any bytes are copied or the "<count> x <size>
bytes" name is built; no 'data' event is emitted. -/
theorem hid_decode_crashes :
    process_message (fun _ => none) [] 5 0 WM_INPUT sample_hid_raw 20 =
      .error "NameError: name \x27get_device_name\x27 is not defined" ∧
    callback_invocations
      (process_message (fun _ => none) [] 5 0 WM_INPUT sample_hid_raw 20) = [] :=
  ⟨rfl, rfl⟩

/-- C5 (code bug): `list_devices()` raises `NameError` on every nonempty OS
enumeration (each entry's `get_device` call crashes at _api.py:132 before the
cache replacement at line 125), so the claimed post-state — a cache holding
exactly the returned handles — never materializes. The only enumeration that
returns is the empty one, and it leaves the cache empty, so `CACHED_DEVICES`
can never be populated by any execution. -/
theorem list_devices_crashes_on_nonempty_enumeration :
    list_devices [⟨7, 0⟩] [] =
      .error "NameError: name \x27get_device_name\x27 is not defined" ∧
    list_devices [] [(7, sample_mouse_device)] = .ok ([], [], 0) :=
  ⟨rfl, rfl⟩

/-- C6 (code bug): on every `WM_INPUT` message the hook raises `NameError`
(undefined `get_device_name` reached via `get_device` at _api.py:221/132 on
the program's only reachable cache state), so the exception propagates out of
the wrapper installed by `set_window_procedure`: the message is NOT forwarded
to the previous window procedure ("always forwards" fails) and the callback
runs zero times, not exactly once per notification. Non-`WM_INPUT` messages,
which the hook ignores before decoding, are still forwarded via
`CallWindowProc`. -/
theorem hook_crashes_on_wm_input :
    window_proc_trace true 77
      ((process_message (fun _ => none) [] 5 0 WM_INPUT sample_kb_raw 40).map fun _ => ()) =
      [.hookInvoked] ∧
    callback_invocations
      (process_message (fun _ => none) [] 5 0 WM_INPUT sample_kb_raw 40) = [] ∧
    process_message (fun _ => none) [] 5 0 0 sample_kb_raw 40 = .ok (none, []) ∧
    window_proc_trace true 77
      ((process_message (fun _ => none) [] 5 0 0 sample_kb_raw 40).map fun _ => ()) =
      [.hookInvoked, .callPreviousProc 77] :=
  ⟨rfl, rfl, rfl, rfl⟩

/-- C7 (code bug): keyboard name resolution never runs in the staged code:
`NameError` at _api.py:132 (undefined `get_device_name`) precedes it on every
`WM_INPUT` keyboard notification. Neither branch is reachable — not the
`VIRTUAL_KEYBOARD` hit (virtual-key 0x41 here) nor the scan-code-table
fallback (virtual-key 0xbf, absent from the table, with a total scan-code
table supplied) — so no event ever gets a name from either table. -/
theorem keyboard_name_resolution_unreachable :
    process_message (fun _ => some "fallback") [] 5 0 WM_INPUT sample_kb_raw 40 =
      .error "NameError: name \x27get_device_name\x27 is not defined" ∧
    process_message (fun _ => some "fallback") [] 5 0 WM_INPUT
      ⟨7, .keyboard ⟨30, 0, 0xbf, 256⟩⟩ 40 =
      .error "NameError: name \x27get_device_name\x27 is not defined" :=
  ⟨rfl, rfl⟩

/-- C9 (code bug): device metadata resolution is unreachable in the staged
code. For every uncached handle and each of the three device classes,
`get_device` raises `NameError` at _api.py:132 (undefined `get_device_name`)
before any lookup into `MOUSE_TYPES`, `KEYBOARD_TYPES` or
`USAGE_PAGE_NAMES`, before the "unknown" fallbacks, and before the
sample-rate normalization — so "resolves without raising" never happens. -/
theorem metadata_resolution_unreachable :
    get_device 0 7 [] = .error "NameError: name \x27get_device_name\x27 is not defined" ∧
    get_device 1 7 [] = .error "NameError: name \x27get_device_name\x27 is not defined" ∧
    get_device 2 7 [] = .error "NameError: name \x27get_device_name\x27 is not defined" :=
  ⟨rfl, rfl, rfl⟩

/-- C10 (code bug): the cached half of the claim is true of the staged code —
a cached handle returns the cached entry with the cache unchanged, zero
platform lookups, and no error even for an unsupported `dw_type` (99) — but
the error-iff half is false: an uncached handle raises `NameError`
(_api.py:132) for every `dw_type`, including the supported class 0, and the
"unsupported device class" `NotImplementedError` at line 158 is unreachable
since the crash precedes the `dw_type` dispatch. -/
theorem get_device_cached_hit_uncached_crash :
    get_device 99 7 [(7, sample_mouse_device)] =
      .ok (sample_mouse_device, [(7, sample_mouse_device)], 0) ∧
    get_device 0 8 [(7, sample_mouse_device)] =
      .error "NameError: name \x27get_device_name\x27 is not defined" ∧
    get_device 99 8 [(7, sample_mouse_device)] =
      .error "NameError: name \x27get_device_name\x27 is not defined" :=
  ⟨rfl, rfl, rfl⟩
